import Mathlib

/-!
Verification of the deployment pipeline and embed component of the blog
repository.

The only repository code with sequencing/failure semantics is the
GitHub Actions workflow `.github/workflows/prod_deploy.yml`; the only
code with a pure functional contract is the YouTube embed component
`content/components/Youtube/Youtube.tsx`.  Both are shallowly embedded
below: the workflow file as literal configuration data (triggers,
permissions, concurrency, jobs, steps transcribed from the YAML), and
the documented platform execution semantics (steps run in order and
stop at the first failure; a job runs only when every job in `needs`
succeeded; `concurrency.cancel-in-progress` cancels the in-flight run
of the same group; external actions are classified by what they read
or write) as executable definitions over that data.
-/

namespace Blog

/-- Permission level of a GitHub token scope (`read` / `write`).
A scope not listed in the `permissions:` block is modelled as `none`. -/
inductive PermLevel
  | read
  | write
  | none
deriving DecidableEq, Repr

/-- The `permissions:` block of the workflow: only the three scopes the
file mentions are modelled; all others default to `PermLevel.none`. -/
structure Permissions where
  contents : PermLevel
  pages : PermLevel
  idToken : PermLevel
deriving DecidableEq, Repr

/-- One step of a job: its display name, the action it `uses` (if any),
the shell script it `run`s (if any), and its `with:` arguments as raw
key/value strings. -/
structure Step where
  name : String
  uses : Option String := Option.none
  runScript : Option String := Option.none
  withArgs : List (String × String) := []
deriving DecidableEq, Repr

/-- One job of the workflow: its key, the `needs` list, and its steps. -/
structure Job where
  key : String
  runsOn : Option String := Option.none
  needs : List String := []
  steps : List Step
deriving DecidableEq, Repr

/-- The `concurrency:` block: a named group and the
`cancel-in-progress` flag. -/
structure Concurrency where
  group : String
  cancelInProgress : Bool
deriving DecidableEq, Repr

/-- The `push:` trigger filter.  `extraKeys` records keys that appear
nested inside the `push:` mapping but are not recognised push filters
(the source nests `workflow_dispatch:` there, mis-indented). -/
structure PushFilter where
  branches : List String
  extraKeys : List String
deriving DecidableEq, Repr

/-- The `on:` block: which top-level event keys are present.
`workflowDispatch` is true only when `workflow_dispatch` is a
TOP-LEVEL key of `on:` — only then does GitHub offer manual runs. -/
structure Triggers where
  push : Option PushFilter
  workflowDispatch : Bool
deriving DecidableEq, Repr

/-- A whole workflow file. -/
structure Workflow where
  wfName : String
  triggers : Triggers
  permissions : Permissions
  concurrency : Concurrency
  jobs : List Job
deriving DecidableEq, Repr

/-! ## The workflow `.github/workflows/prod_deploy.yml`, transcribed.

The current revision of the file declares jobs `build`,
`deploy_pages` and `check_gh_deploy`; an AWS deploy job exists only
inside a comment block at the end of the file. -/

/-- The `build` job step `Checkout` (`actions/checkout@v2`). -/
def checkoutStep : Step :=
  { name := "Checkout", uses := some "actions/checkout@v2" }

/-- The `build` job step `Use Node.js` (`actions/setup-node@v2`, node 18). -/
def nodeStep : Step :=
  { name := "Use Node.js", uses := some "actions/setup-node@v2"
  , withArgs := [("node-version", "18")] }

/-- The `build` job step `Build`: the shell script that installs
dependencies and runs the generator build command. -/
def buildCmdStep : Step :=
  { name := "Build"
  , runScript := some "npm ci --legacy-peer-deps\nnpm run build\n" }

/-- The `build` job step `Setup Pages` (`actions/configure-pages@v1`). -/
def setupPagesStep : Step :=
  { name := "Setup Pages", uses := some "actions/configure-pages@v1"
  , withArgs := [("static_site_generator", "gatsby")] }

/-- The `build` job step `Upload artifact`
(`actions/upload-pages-artifact@v1` with `path: ./public`): the
PACKAGE operation that captures the build output as the artifact
of the run. -/
def uploadArtifactStep : Step :=
  { name := "Upload artifact", uses := some "actions/upload-pages-artifact@v1"
  , withArgs := [("path", "./public")] }

/-- The `build` job. -/
def buildJob : Job :=
  { key := "build", runsOn := some "ubuntu-22.04"
  , steps := [checkoutStep, nodeStep, buildCmdStep, setupPagesStep, uploadArtifactStep] }

/-- The `deploy_pages` job step `Deploy to GitHub Pages`
(`actions/deploy-pages@v1`): consumes the uploaded pages artifact and
replaces the live site content with it. -/
def deployPagesStep : Step :=
  { name := "Deploy to GitHub Pages", uses := some "actions/deploy-pages@v1" }

/-- The `deploy_pages` job (`needs: build`). -/
def deployPagesJob : Job :=
  { key := "deploy_pages", runsOn := some "ubuntu-22.04"
  , needs := ["build"], steps := [deployPagesStep] }

/-- The `check_gh_deploy` job step `Check github.io page`
(`lakuapik/gh-actions-http-status@v1` with `expected: [200]` and
`sites: ["https://phteven.space/"]`). -/
def checkPageStep : Step :=
  { name := "Check github.io page", uses := some "lakuapik/gh-actions-http-status@v1"
  , withArgs := [("expected", "[200]"), ("sites", "[\x22https://phteven.space/\x22]")] }

/-- The `check_gh_deploy` job (`needs: deploy_pages`). -/
def checkGhDeployJob : Job :=
  { key := "check_gh_deploy", runsOn := some "ubuntu-22.04"
  , needs := ["deploy_pages"], steps := [checkPageStep] }

/-- The whole current workflow file.  Note the `on:` block: the file
reads

  on:
    push:
      branches:
        - main
      workflow_dispatch:

so `workflow_dispatch` is indented INSIDE the `push:` mapping (same
level as `branches:`), not a top-level event key; it is transcribed as
an unrecognised extra key of the push filter. -/
def prodDeploy : Workflow :=
  { wfName := "Deploy code"
  , triggers := { push := some { branches := ["main"], extraKeys := ["workflow_dispatch"] }
                , workflowDispatch := false }
  , permissions := { contents := .read, pages := .write, idToken := .write }
  , concurrency := { group := "pages", cancelInProgress := true }
  , jobs := [buildJob, deployPagesJob, checkGhDeployJob] }

/-- The AWS deploy job as written in the comment block at the end of
the file (`#  deploy_aws: ... needs: [build] ...`).  It is transcribed
here so that its declared dependencies can be examined; it is NOT a
member of `prodDeploy.jobs`. -/
def commentedDeployAwsJob : Job :=
  { key := "deploy_aws", runsOn := some "ubuntu-22.04"
  , needs := ["build"]
  , steps :=
    [ { name := "Get artifact from build step", uses := some "actions/download-artifact@v3"
      , withArgs := [("name", "github-pages")] }
    , { name := "Configure AWS Credentials", uses := some "aws-actions/configure-aws-credentials@v1"
      , withArgs := [("aws-access-key-id", "$\x7b\x7b secrets.AWS_ACCESS_KEY_ID \x7d\x7d"),
                     ("aws-secret-access-key", "$\x7b\x7b secrets.AWS_SECRET_ACCESS_KEY \x7d\x7d"),
                     ("aws-region", "$\x7b\x7bsecrets.REGION\x7d\x7d")] }
    , { name := "change directory"
      , runScript := some "cd $\x7b\x7bsteps.download_artifact.outputs.download-path\x7d\x7d" }
    , { name := "unzip archive", runScript := some "tar -xf archive.tar" }
    , { name := "check files", runScript := some "ls" }
    , { name := "Deploy", uses := some "jonelantha/gatsby-s3-action@v1"
      , withArgs := [("dest-s3-bucket", "$\x7b\x7bsecrets.BUCKET_NAME\x7d\x7d")] } ] }

/-! ## Platform semantics: triggers -/

/-- An external event that may start a workflow run. -/
inductive Event
  | push (branch : String)
  | manualDispatch
deriving DecidableEq, Repr

/-- Whether an event starts a run of the workflow: a `push` event does
when `on:` has a top-level `push` key whose branch filter matches; a
manual dispatch does only when `on:` has a top-level
`workflow_dispatch` key.  Unrecognised keys nested inside a filter
have no effect. -/
def triggersRun (w : Workflow) : Event → Bool
  | .push b =>
    match w.triggers.push with
    | some f => f.branches.contains b
    | Option.none => false
  | .manualDispatch => w.triggers.workflowDispatch

/-! ## Platform semantics: steps and jobs -/

/-- The steps of a job that actually execute, given which steps would
succeed (`ok`): steps run in listed order and execution stops right
after the first failing step. -/
def execSteps (ok : Step → Bool) : List Step → List Step
  | [] => []
  | s :: rest => if ok s then s :: execSteps ok rest else [s]

/-- Result of a job in a run. -/
inductive JobResult
  | success
  | failure
  | skipped
deriving DecidableEq, Repr

/-- A job succeeds iff every one of its steps succeeds (execution
stops at the first failing step, which already makes the conjunction
false). -/
def jobOutcome (ok : String → Step → Bool) (j : Job) : JobResult :=
  if j.steps.all (ok j.key) then .success else .failure

/-- Look up the result of a job in the result list of a run; a job with no entry
never ran. -/
def lookupResult (rs : List (String × JobResult)) (k : String) : JobResult :=
  match rs.find? (fun p => p.1 == k) with
  | some p => p.2
  | Option.none => .skipped

/-- Execute jobs in listed order (the file lists each job after all
jobs it needs): a job runs and gets its outcome when every job in its
`needs` list has succeeded, and is skipped otherwise. -/
def runJobs (ok : String → Step → Bool) (acc : List (String × JobResult)) :
    List Job → List (String × JobResult)
  | [] => acc
  | j :: rest =>
    let r := if j.needs.all (fun n => lookupResult acc n == .success)
             then jobOutcome ok j else .skipped
    runJobs ok (acc ++ [(j.key, r)]) rest

/-- The results of one full run of a workflow, given which steps would
succeed. -/
def runWorkflow (ok : String → Step → Bool) (w : Workflow) : List (String × JobResult) :=
  runJobs ok [] w.jobs

/-! ## Platform semantics: concurrency groups

`concurrency: group: "pages", cancel-in-progress: true` means that
when a run starts in the group, any run of the same group still in
flight is cancelled. -/

/-- The lifecycle state of one run inside a concurrency group. -/
inductive RunState
  | active
  | cancelled
  | completed
deriving DecidableEq, Repr

/-- A scheduling event on a concurrency group: a run starts, or an
active run finishes. -/
inductive GroupEvent
  | start (runId : Nat)
  | finish (runId : Nat)
deriving DecidableEq, Repr

/-- Count of runs currently active in a group. -/
def countActive (st : List (Nat × RunState)) : Nat :=
  (st.filter (fun p => p.2 == RunState.active)).length

/-- One scheduling event applied to the group state.  With
`cancel-in-progress: true`, a starting run first cancels every
in-flight (active) run of the group, then becomes the sole active
run; a finishing active run becomes completed. -/
def applyGroupEvent (cancelInProgress : Bool) (st : List (Nat × RunState)) :
    GroupEvent → List (Nat × RunState)
  | .start r =>
    (st.map (fun p => if cancelInProgress && p.2 == RunState.active
                      then (p.1, RunState.cancelled) else p)) ++ [(r, .active)]
  | .finish r =>
    st.map (fun p => if p.1 == r && p.2 == RunState.active
                     then (p.1, RunState.completed) else p)

/-- The group state after a sequence of scheduling events, starting
from the empty group. -/
def groupRun (cancelInProgress : Bool) (es : List GroupEvent) : List (Nat × RunState) :=
  es.foldl (applyGroupEvent cancelInProgress) []

/-! ## Platform semantics: effect of steps on the live site

Each step is classified by the external action it invokes:
`actions/deploy-pages@v1` replaces the live GitHub Pages content with
the artifact of the run; `lakuapik/gh-actions-http-status@v1` issues HTTP
GET requests (reads only); every other step in this workflow touches
only the runner (checkout, toolchain setup, build, artifact upload). -/

/-- What a step does to deployment targets. -/
inductive SiteEffect
  | writeLive
  | httpGet
  | runnerOnly
deriving DecidableEq, Repr

/-- Classify a step by the action it uses. -/
def stepEffect (s : Step) : SiteEffect :=
  match s.uses with
  | some u =>
    if u == "actions/deploy-pages@v1" then .writeLive
    else if u == "lakuapik/gh-actions-http-status@v1" then .httpGet
    else .runnerOnly
  | Option.none => .runnerOnly

/-- Live-content semantics of one step: a `writeLive` step replaces
the served content with the artifact of the run; any other step leaves it
unchanged. -/
def applyStepLive {α : Type} (artifact : α) (live : α) (s : Step) : α :=
  match stepEffect s with
  | .writeLive => artifact
  | _ => live

/-- Served content after the steps of a job run against artifact
`artifact`, starting from live content `live`. -/
def jobLive {α : Type} (artifact : α) (live : α) (j : Job) : α :=
  j.steps.foldl (applyStepLive artifact) live

/-! ## Health-check configuration of the VERIFY stage

`lakuapik/gh-actions-http-status@v1` issues one HTTP GET per entry of
its `sites` input and fails the step unless every response status is
listed in its `expected` input.  In `check_gh_deploy` the inputs are
`sites: ["https://phteven.space/"]` and `expected: [200]`. -/

/-- The `sites` input of the `Check github.io page` step, parsed. -/
def checkSites : List String := ["https://phteven.space/"]

/-- The `expected` input of the `Check github.io page` step, parsed. -/
def checkExpected : List Nat := [200]

/-- Whether the health check passes, given the status code returned by
the single configured site. -/
def verifyPasses (status : Nat) : Bool :=
  checkExpected.contains status

/-! ## Platform semantics: permissions

The workflow-level `permissions:` block applies to every job, since no
job declares its own `permissions:` (the `Job` structure has no such
field because the file has none). -/

/-- Effective token permissions of a job of workflow `w`: the
workflow-level block. -/
def effectivePermissions (w : Workflow) (_j : Job) : Permissions :=
  w.permissions

/-- A job can modify the repository contents only with `contents:
write`. -/
def canWriteRepo (w : Workflow) (j : Job) : Bool :=
  (effectivePermissions w j).contents == PermLevel.write

/-! ## The YouTube embed component `Youtube.tsx`

`YoutubeEmbed` is a plain function of its props: it returns a `div`
of class `react-live-wrapper` containing an `iframe` whose attributes
are fixed literals except `src` (string interpolation of the id into
the YouTube embed URL) and `title` (passed through). -/

/-- The props interface of `Youtube.tsx`. -/
structure YoutubeProps where
  embed_id : String
  title : String
deriving DecidableEq, Repr

/-- The attributes of the rendered `iframe` element. -/
structure IframeAttrs where
  src : String
  width : String
  height : String
  frameBorder : String
  allow : String
  allowFullScreen : Bool
  frameTitle : String
deriving DecidableEq, Repr

/-- The rendered output: a wrapper `div` with its class name and the
`iframe` it contains. -/
structure EmbedOutput where
  divClassName : String
  iframe : IframeAttrs
deriving DecidableEq, Repr

/-- Function `YoutubeEmbed`, transcribed from `Youtube.tsx`. -/
def YoutubeEmbed (props : YoutubeProps) : EmbedOutput :=
  { divClassName := "react-live-wrapper"
  , iframe :=
    { src := "https://www.youtube.com/embed/" ++ props.embed_id
    , width := "100%"
    , height := "500"
    , frameBorder := "0"
    , allow := "accelerometer; autoplay; clipboard-write; encrypted-media; gyroscope; picture-in-picture"
    , allowFullScreen := true
    , frameTitle := props.title } }

/-- Success/failure outcome of an executed job from the combined flag of its steps. -/
def outcomeOf (b : Bool) : JobResult :=
  if b then .success else .failure

/-- The workflow as it would read with the commented `deploy_aws` job
re-enabled (its comment block placed after the active jobs, exactly
where it sits in the file). -/
def prodDeployWithAws : Workflow :=
  { prodDeploy with jobs := [buildJob, deployPagesJob, checkGhDeployJob, commentedDeployAwsJob] }

/-! ## Helper lemmas about the run semantics -/

@[simp] lemma prodDeploy_jobs : prodDeploy.jobs = [buildJob, deployPagesJob, checkGhDeployJob] := rfl

@[simp] lemma buildJob_key : buildJob.key = "build" := rfl

@[simp] lemma buildJob_needs : buildJob.needs = [] := rfl

@[simp] lemma deployPagesJob_key : deployPagesJob.key = "deploy_pages" := rfl

@[simp] lemma deployPagesJob_needs : deployPagesJob.needs = ["build"] := rfl

@[simp] lemma checkGhDeployJob_key : checkGhDeployJob.key = "check_gh_deploy" := rfl

@[simp] lemma checkGhDeployJob_needs : checkGhDeployJob.needs = ["deploy_pages"] := rfl

/-- A full run of `prodDeploy`, characterised: `build` always runs;
`deploy_pages` runs iff `build` succeeded; `check_gh_deploy` runs iff
`deploy_pages` ran and succeeded. -/
lemma runWorkflow_prodDeploy (ok : String → Step → Bool) :
    runWorkflow ok prodDeploy =
      [("build", outcomeOf (buildJob.steps.all (ok "build"))),
       ("deploy_pages",
         if buildJob.steps.all (ok "build")
         then outcomeOf (deployPagesJob.steps.all (ok "deploy_pages"))
         else JobResult.skipped),
       ("check_gh_deploy",
         if buildJob.steps.all (ok "build") && deployPagesJob.steps.all (ok "deploy_pages")
         then outcomeOf (checkGhDeployJob.steps.all (ok "check_gh_deploy"))
         else JobResult.skipped)] := by
  cases hb : buildJob.steps.all (ok "build") <;>
    cases hp : deployPagesJob.steps.all (ok "deploy_pages") <;>
      cases hc : checkGhDeployJob.steps.all (ok "check_gh_deploy") <;>
        simp [runWorkflow, runJobs, jobOutcome, lookupResult, outcomeOf, hb, hp, hc]

@[simp] lemma prodDeployWithAws_jobs :
    prodDeployWithAws.jobs = [buildJob, deployPagesJob, checkGhDeployJob, commentedDeployAwsJob] := rfl

@[simp] lemma commentedDeployAwsJob_key : commentedDeployAwsJob.key = "deploy_aws" := rfl

@[simp] lemma commentedDeployAwsJob_needs : commentedDeployAwsJob.needs = ["build"] := rfl

/-- A full run of the AWS-enabled variant, characterised: both
`deploy_pages` and `deploy_aws` are gated only on `build` succeeding,
not on each other. -/
lemma runWorkflow_prodDeployWithAws (ok : String → Step → Bool) :
    runWorkflow ok prodDeployWithAws =
      [("build", outcomeOf (buildJob.steps.all (ok "build"))),
       ("deploy_pages",
         if buildJob.steps.all (ok "build")
         then outcomeOf (deployPagesJob.steps.all (ok "deploy_pages"))
         else JobResult.skipped),
       ("check_gh_deploy",
         if buildJob.steps.all (ok "build") && deployPagesJob.steps.all (ok "deploy_pages")
         then outcomeOf (checkGhDeployJob.steps.all (ok "check_gh_deploy"))
         else JobResult.skipped),
       ("deploy_aws",
         if buildJob.steps.all (ok "build")
         then outcomeOf (commentedDeployAwsJob.steps.all (ok "deploy_aws"))
         else JobResult.skipped)] := by
  cases hb : buildJob.steps.all (ok "build") <;>
    cases hp : deployPagesJob.steps.all (ok "deploy_pages") <;>
      cases hc : checkGhDeployJob.steps.all (ok "check_gh_deploy") <;>
        cases ha : commentedDeployAwsJob.steps.all (ok "deploy_aws") <;>
          simp [runWorkflow, runJobs, jobOutcome, lookupResult, outcomeOf, hb, hp, hc, ha]

/-- A step is reached only when every earlier step succeeded: if the
`Build` step fails, the later `Upload artifact` step never executes. -/
lemma upload_not_reached (ok : Step → Bool) (h : ok buildCmdStep = false) :
    uploadArtifactStep ∉ execSteps ok buildJob.steps := by
  show uploadArtifactStep ∉
    execSteps ok [checkoutStep, nodeStep, buildCmdStep, setupPagesStep, uploadArtifactStep]
  cases h1 : ok checkoutStep <;> cases h2 : ok nodeStep <;>
    simp [execSteps, h, h1, h2] <;> decide

/-! Concurrency-group lemmas. -/

@[simp] lemma beq_cancelled_active : (RunState.cancelled == RunState.active) = false := rfl

@[simp] lemma beq_completed_active : (RunState.completed == RunState.active) = false := rfl

@[simp] lemma beq_active_active : (RunState.active == RunState.active) = true := rfl

/-- After a `start` event with `cancel-in-progress` on, exactly one
run of the group is active: the one that just started. -/
lemma countActive_start (st : List (Nat × RunState)) (b : Nat) :
    countActive (applyGroupEvent true st (.start b)) = 1 := by
  induction st with
  | nil => rfl
  | cons p rest ih =>
    rcases p with ⟨i, s⟩
    cases s <;>
      simpa [applyGroupEvent, countActive, List.filter] using ih

/-- A `finish` event never increases the number of active runs. -/
lemma countActive_finish (cip : Bool) (st : List (Nat × RunState)) (r : Nat) :
    countActive (applyGroupEvent cip st (.finish r)) ≤ countActive st := by
  induction st with
  | nil => exact Nat.le_refl 0
  | cons p rest ih =>
    rcases p with ⟨i, s⟩
    cases hi : (i == r) <;> cases s <;>
      simp [applyGroupEvent, countActive, List.filter, hi] at ih ⊢ <;> omega

/-- The mutual-exclusion invariant: starting from the empty group,
after any sequence of events at most one run is active. -/
lemma countActive_groupRun_le_one (es : List GroupEvent) :
    countActive (groupRun true es) ≤ 1 := by
  suffices h : ∀ st, countActive st ≤ 1 →
      countActive (es.foldl (applyGroupEvent true) st) ≤ 1 by
    exact h [] (by decide)
  induction es with
  | nil => intro st hst; simpa using hst
  | cons e rest ih =>
    intro st hst
    rw [List.foldl_cons]
    cases e with
    | start b => exact ih _ (Nat.le_of_eq (countActive_start st b))
    | finish r => exact ih _ (Nat.le_trans (countActive_finish true st r) hst)

/-- The outcome of an executed job is success or failure, never skipped. -/
lemma outcomeOf_ne_skipped (b : Bool) : outcomeOf b ≠ JobResult.skipped := by
  cases b <;> decide

/-! ## Claim theorems -/

/-- C4 (evaluation at the failing input): a push to `main` starts a
run and a push to another branch does not, but a manual dispatch does
NOT start a run — the `workflow_dispatch` key of the file is indented
inside the `push:` filter mapping instead of being a top-level key of
`on:`, so manual invocation is never wired up. -/
theorem triggers_push_main_only :
    triggersRun prodDeploy (Event.push "main") = true ∧
    triggersRun prodDeploy (Event.push "develop") = false ∧
    triggersRun prodDeploy Event.manualDispatch = false ∧
    prodDeploy.triggers.workflowDispatch = false ∧
    prodDeploy.triggers.push = some { branches := ["main"], extraKeys := ["workflow_dispatch"] } := by
  decide

/-- C5: the embed component is a pure total function of its props: for
every pair of strings it returns the fixed-layout frame whose `src` is
the literal interpolation of the identifier into the YouTube embed
URL, with no validation and no error path — the identifier is passed
through uninterpreted whatever string it is. -/
theorem youtube_embed_pure_interpolation (i t : String) :
    YoutubeEmbed { embed_id := i, title := t } =
      { divClassName := "react-live-wrapper"
      , iframe :=
        { src := "https://www.youtube.com/embed/" ++ i
        , width := "100%"
        , height := "500"
        , frameBorder := "0"
        , allow := "accelerometer; autoplay; clipboard-write; encrypted-media; gyroscope; picture-in-picture"
        , allowFullScreen := true
        , frameTitle := t } } := rfl

/-- C6: step `Upload artifact` of the `build` job captures the build
output directory `./public` as the pages artifact of the run, and the
downstream jobs consume it without re-running the build: each of
their steps invokes a deploy or check action and runs no shell
command at all, in particular no build step. -/
theorem package_artifact_no_rebuild :
    buildJob.steps.contains uploadArtifactStep = true ∧
    uploadArtifactStep.uses = some "actions/upload-pages-artifact@v1" ∧
    uploadArtifactStep.withArgs = [("path", "./public")] ∧
    deployPagesJob.needs = ["build"] ∧
    deployPagesJob.steps = [deployPagesStep] ∧
    deployPagesStep.uses = some "actions/deploy-pages@v1" ∧
    (deployPagesJob.steps.all (fun s => s.runScript.isNone) = true) ∧
    (checkGhDeployJob.steps.all (fun s => s.runScript.isNone) = true) := by
  decide

/-- C7: the AWS deploy path exists only as the commented-out
`deploy_aws` job: no job of the active workflow is named
`deploy_aws`, the transcribed commented job is not among the active
jobs, and in every run the `deploy_aws` result is "never ran". -/
theorem aws_deploy_never_executes :
    (prodDeploy.jobs.all (fun j => j.key != "deploy_aws") = true) ∧
    (prodDeploy.jobs.contains commentedDeployAwsJob = false) ∧
    (∀ ok, lookupResult (runWorkflow ok prodDeploy) "deploy_aws" = JobResult.skipped) := by
  refine ⟨by decide, by decide, fun ok => ?_⟩
  rw [runWorkflow_prodDeploy]
  simp [lookupResult, List.find?]

/-- C9: the VERIFY job writes nothing to any deployment target: its
only step issues an HTTP GET, so running it leaves the live content
unchanged whatever the response status, while the publish job is the
step that replaces the live content with the artifact. -/
theorem verify_writes_nothing :
    (∀ (α : Type) (artifact live : α), jobLive artifact live checkGhDeployJob = live) ∧
    (∀ (α : Type) (artifact live : α), jobLive artifact live deployPagesJob = artifact) ∧
    (checkGhDeployJob.steps.all (fun s => stepEffect s != SiteEffect.writeLive) = true) ∧
    stepEffect checkPageStep = SiteEffect.httpGet := by
  refine ⟨fun α a l => rfl, fun α a l => rfl, by decide, rfl⟩

/-- C10: the workflow grants `contents: read`, `pages: write`,
`id-token: write`; no job declares its own permissions, so every job
runs with the workflow-level block and none can write the repository
contents. -/
theorem permissions_contents_read_only :
    prodDeploy.permissions =
      { contents := PermLevel.read, pages := PermLevel.write, idToken := PermLevel.write } ∧
    (∀ j : Job, effectivePermissions prodDeploy j = prodDeploy.permissions) ∧
    (prodDeploy.jobs.all (fun j => !(canWriteRepo prodDeploy j)) = true) := by
  exact ⟨rfl, fun j => rfl, by decide⟩

/-- C1: if the `Build` step (dependency install + build command)
fails, the run halts at BUILD: the `Upload artifact` step is never
reached (no artifact is uploaded), the `build` job fails, and both
`deploy_pages` and `check_gh_deploy` are skipped — no partial publish
occurs. -/
theorem build_failure_halts_run (ok : String → Step → Bool)
    (h : ok "build" buildCmdStep = false) :
    uploadArtifactStep ∉ execSteps (ok "build") buildJob.steps ∧
    lookupResult (runWorkflow ok prodDeploy) "build" = JobResult.failure ∧
    lookupResult (runWorkflow ok prodDeploy) "deploy_pages" = JobResult.skipped ∧
    lookupResult (runWorkflow ok prodDeploy) "check_gh_deploy" = JobResult.skipped := by
  have hb : buildJob.steps.all (ok "build") = false := by
    simp [buildJob, List.all, h]
  refine ⟨upload_not_reached (ok "build") h, ?_, ?_, ?_⟩ <;>
    rw [runWorkflow_prodDeploy] <;>
      simp [lookupResult, List.find?, outcomeOf, hb]

/-- C1 witness: a concrete run whose `Build` step fails. -/
theorem build_failure_halts_run_witness :
    ((fun (_ : String) (s : Step) => s.name != "Build") "build" buildCmdStep = false) ∧
    (uploadArtifactStep ∉
       execSteps ((fun (_ : String) (s : Step) => s.name != "Build") "build") buildJob.steps ∧
     lookupResult (runWorkflow (fun (_ : String) (s : Step) => s.name != "Build") prodDeploy)
       "build" = JobResult.failure ∧
     lookupResult (runWorkflow (fun (_ : String) (s : Step) => s.name != "Build") prodDeploy)
       "deploy_pages" = JobResult.skipped ∧
     lookupResult (runWorkflow (fun (_ : String) (s : Step) => s.name != "Build") prodDeploy)
       "check_gh_deploy" = JobResult.skipped) :=
  ⟨by decide, build_failure_halts_run (fun (_ : String) (s : Step) => s.name != "Build") (by decide)⟩

/-- C2: the concurrency group of the workflow is "pages" with
cancel-in-progress; under that policy at most one run of the group is
ever active, a newly started run cancels the in-flight one (which
therefore does not complete: once cancelled, a run stays cancelled
under every later event). -/
theorem concurrency_single_active :
    prodDeploy.concurrency = { group := "pages", cancelInProgress := true } ∧
    (∀ es, countActive (groupRun prodDeploy.concurrency.cancelInProgress es) ≤ 1) ∧
    (∀ st a b, (a, RunState.active) ∈ st →
       (a, RunState.cancelled) ∈
         applyGroupEvent prodDeploy.concurrency.cancelInProgress st (.start b) ∧
       countActive (applyGroupEvent prodDeploy.concurrency.cancelInProgress st (.start b)) = 1) ∧
    (∀ st a e, (a, RunState.cancelled) ∈ st →
       (a, RunState.cancelled) ∈ applyGroupEvent prodDeploy.concurrency.cancelInProgress st e) := by
  refine ⟨rfl, countActive_groupRun_le_one, fun st a b h => ⟨?_, countActive_start st b⟩,
    fun st a e h => ?_⟩
  · show (a, RunState.cancelled) ∈
      (st.map (fun p => if true && p.2 == RunState.active
                        then (p.1, RunState.cancelled) else p)) ++ [(b, RunState.active)]
    refine List.mem_append_left _ (List.mem_map.mpr ⟨(a, RunState.active), h, ?_⟩)
    simp
  · cases e with
    | start b =>
      show (a, RunState.cancelled) ∈
        (st.map (fun p => if true && p.2 == RunState.active
                          then (p.1, RunState.cancelled) else p)) ++ [(b, RunState.active)]
      refine List.mem_append_left _ (List.mem_map.mpr ⟨(a, RunState.cancelled), h, ?_⟩)
      simp
    | finish r =>
      show (a, RunState.cancelled) ∈
        st.map (fun p => if p.1 == r && p.2 == RunState.active
                         then (p.1, RunState.completed) else p)
      refine List.mem_map.mpr ⟨(a, RunState.cancelled), h, ?_⟩
      simp

/-- C2 witness: run 0 is active, run 1 starts: run 0 is cancelled and
only run 1 is active; a cancelled run 0 stays cancelled across a later
event. -/
theorem concurrency_single_active_witness :
    ((0, RunState.active) ∈ [(0, RunState.active)] ∧
     ((0, RunState.cancelled) ∈
        applyGroupEvent prodDeploy.concurrency.cancelInProgress
          [(0, RunState.active)] (.start 1) ∧
      countActive (applyGroupEvent prodDeploy.concurrency.cancelInProgress
          [(0, RunState.active)] (.start 1)) = 1)) ∧
    ((0, RunState.cancelled) ∈ [(0, RunState.cancelled)] ∧
     (0, RunState.cancelled) ∈
       applyGroupEvent prodDeploy.concurrency.cancelInProgress
         [(0, RunState.cancelled)] (.finish 0)) :=
  ⟨⟨by decide, concurrency_single_active.2.2.1 [(0, RunState.active)] 0 1 (by decide)⟩,
   ⟨by decide, concurrency_single_active.2.2.2 [(0, RunState.cancelled)] 0 (.finish 0) (by decide)⟩⟩

/-- C3: the VERIFY job runs only when `deploy_pages` succeeded (it
`needs` it), and its single configured site is the public URL with the
single expected status 200: the health check passes exactly on status
200 and fails on every other status. -/
theorem verify_only_after_publish_success (ok : String → Step → Bool)
    (h : lookupResult (runWorkflow ok prodDeploy) "check_gh_deploy" ≠ JobResult.skipped) :
    lookupResult (runWorkflow ok prodDeploy) "deploy_pages" = JobResult.success ∧
    checkGhDeployJob.needs = ["deploy_pages"] ∧
    checkPageStep.uses = some "lakuapik/gh-actions-http-status@v1" ∧
    checkSites = ["https://phteven.space/"] ∧
    checkSites.length = 1 ∧
    (∀ status : Nat, verifyPasses status = true ↔ status = 200) := by
  refine ⟨?_, rfl, rfl, rfl, rfl, fun status => ?_⟩
  · rw [runWorkflow_prodDeploy] at h ⊢
    cases hb : buildJob.steps.all (ok "build") <;>
      cases hp : deployPagesJob.steps.all (ok "deploy_pages") <;>
        simp [lookupResult, List.find?, outcomeOf, hb, hp] at h ⊢
  · have hv : verifyPasses status = (status == 200) := by
      cases h200 : (status == 200) <;>
        simp [verifyPasses, checkExpected, List.contains, List.elem, h200]
    rw [hv]
    exact beq_iff_eq

/-- C3 witness: a fully green run: `check_gh_deploy` ran, and
`deploy_pages` succeeded. -/
theorem verify_only_after_publish_success_witness :
    (lookupResult (runWorkflow (fun (_ : String) (_ : Step) => true) prodDeploy)
       "check_gh_deploy" ≠ JobResult.skipped) ∧
    lookupResult (runWorkflow (fun (_ : String) (_ : Step) => true) prodDeploy)
       "deploy_pages" = JobResult.success :=
  ⟨by decide,
   (verify_only_after_publish_success (fun (_ : String) (_ : Step) => true) (by decide)).1⟩

/-- C8: with the commented `deploy_aws` job re-enabled, both publish
jobs depend only on `build`: whenever `build` succeeded, each publish
job attempts its own publish (is not skipped), whatever the other one
does — in particular a `deploy_pages` failure does not prevent
`deploy_aws` from running. -/
theorem publish_targets_independent (ok : String → Step → Bool)
    (h : lookupResult (runWorkflow ok prodDeployWithAws) "build" = JobResult.success) :
    deployPagesJob.needs = ["build"] ∧
    commentedDeployAwsJob.needs = ["build"] ∧
    lookupResult (runWorkflow ok prodDeployWithAws) "deploy_pages" ≠ JobResult.skipped ∧
    lookupResult (runWorkflow ok prodDeployWithAws) "deploy_aws" ≠ JobResult.skipped := by
  have hb : buildJob.steps.all (ok "build") = true := by
    rw [runWorkflow_prodDeployWithAws] at h
    cases hb : buildJob.steps.all (ok "build")
    · simp [lookupResult, List.find?, outcomeOf, hb] at h
    · rfl
  refine ⟨rfl, rfl, ?_, ?_⟩ <;>
    rw [runWorkflow_prodDeployWithAws] <;>
      simp only [lookupResult, List.find?, hb] <;>
        exact outcomeOf_ne_skipped _

/-- C8 witness: a run of the AWS-enabled variant where `deploy_pages`
fails (all its steps fail) while `build` and `deploy_aws` succeed:
`deploy_aws` still ran. -/
theorem publish_targets_independent_witness :
    (lookupResult (runWorkflow (fun (k : String) (_ : Step) => k != "deploy_pages")
        prodDeployWithAws) "build" = JobResult.success) ∧
    (deployPagesJob.needs = ["build"] ∧
     commentedDeployAwsJob.needs = ["build"] ∧
     lookupResult (runWorkflow (fun (k : String) (_ : Step) => k != "deploy_pages")
        prodDeployWithAws) "deploy_pages" ≠ JobResult.skipped ∧
     lookupResult (runWorkflow (fun (k : String) (_ : Step) => k != "deploy_pages")
        prodDeployWithAws) "deploy_aws" ≠ JobResult.skipped) :=
  ⟨by decide,
   publish_targets_independent (fun (k : String) (_ : Step) => k != "deploy_pages") (by decide)⟩

end Blog
